import Mathlib

/-!
Verification development for the excerpted `simex_platform` sources:

* `Sources/python/SimEx/Parameters/DetectorGeometry.py`
  (class `DetectorGeometryParameters`, function `propToBeamParameters`), and
* `python/src/SimEx/Calculators/PlasmaXRTSCalculator.py`
  (class `PlasmaXRTSCalculator`, functions `parseStaticData`, `extractDate`,
  `checkAndSetParameters`).

Python floats are modelled by exact rationals (`ℚ`); the one square root
(`math.sqrt`) is modelled by `Real.sqrt` on the rational radicand.  Python
float division by zero raises `ZeroDivisionError`, which the model reflects by
an explicit `Except` error; numpy divisions by zero produce non-finite floats
instead of raising, and inputs exercising those are outside the region the
theorems below speak about.  Fallible code returns `Except SimErr`.
-/

/-- Exception kinds raised by the modelled code paths. -/
inductive SimErr where
  | ioError
  | runtimeError
  | typeError
  | valueError
  | zeroDivisionError
  | indexError
  deriving DecidableEq, Repr

/-! ## DetectorGeometry.py : mesh and propagation output -/

/-- The `wavefront.params.Mesh` fields used by `propToBeamParameters`
(DetectorGeometry.py lines 154-160, 179-181). -/
structure Mesh where
  xMin : ℚ
  xMax : ℚ
  nx : ℕ
  yMin : ℚ
  yMax : ℚ
  ny : ℕ
  sliceMin : ℚ
  sliceMax : ℚ
  nSlices : ℕ
  deriving DecidableEq, Repr

/-- The data `propToBeamParameters` reads from the propagation output file and
from the wpg utility calls.  `int0` is `get_intensity().sum(axis=0).sum(axis=0)`
in the time representation (line 157), `spectrum` the same after switching the
field to the frequency representation (line 180), `fwhm_x`/`fwhm_y` the
real-space and `qfwhm_x`/`qfwhm_y` the reciprocal-space results of
`wpg_uti_wf.calculate_fwhm` (lines 198, 203). -/
structure PropOutput where
  fileExists : Bool
  timeMesh : Mesh
  int0 : List ℚ
  pulse_energy : ℚ
  energyMesh : Mesh
  spectrum : List ℚ
  fwhm_x : ℚ
  fwhm_y : ℚ
  qfwhm_x : ℚ
  qfwhm_y : ℚ
  deriving DecidableEq, Repr

/-- `numpy.linspace(a, b, n)`: `n` evenly spaced samples from `a` to `b`
(step `(b-a)/(n-1)`).  For `n = 1` numpy returns `[a]`; so does this model
(`(b-a)/0 = 0` in `ℚ`). -/
def linspace (a b : ℚ) (n : ℕ) : List ℚ :=
  (List.range n).map (fun i => a + (i : ℚ) * ((b - a) / ((n : ℚ) - 1)))

/-- `dx = (mesh.xMax - mesh.xMin)/(mesh.nx - 1)` (line 155). -/
def dxOf (m : Mesh) : ℚ := (m.xMax - m.xMin) / ((m.nx : ℚ) - 1)

/-- `dy = (mesh.yMax - mesh.yMin)/(mesh.ny - 1)` (line 156). -/
def dyOf (m : Mesh) : ℚ := (m.yMax - m.yMin) / ((m.ny : ℚ) - 1)

/-- `times = numpy.linspace(mesh.sliceMin, mesh.sliceMax, mesh.nSlices)`
(line 160); also `energies` (line 181) on the frequency-domain mesh. -/
def sliceGrid (m : Mesh) : List ℚ := linspace m.sliceMin m.sliceMax m.nSlices

/-- `total_intensity = int0*dx*dy` (line 158). -/
def totalIntensity (env : PropOutput) : List ℚ :=
  env.int0.map (fun v => v * dxOf env.timeMesh * dyOf env.timeMesh)

/-- `t = times[:-1]` (line 162). -/
def tArr (env : PropOutput) : List ℚ := (sliceGrid env.timeMesh).dropLast

/-- `dt = times[1:] - times[:-1]` (line 163). -/
def dtArr (env : PropOutput) : List ℚ :=
  List.zipWith (fun a b => a - b) ((sliceGrid env.timeMesh).drop 1)
    ((sliceGrid env.timeMesh).dropLast)

/-- `It = total_intensity[:-1]` (line 165). -/
def ItArr (env : PropOutput) : List ℚ := (totalIntensity env).dropLast

/-- `m0 = numpy.sum(It*dt)` (line 167). -/
def timeM0 (env : PropOutput) : ℚ :=
  (List.zipWith (fun a b => a * b) (ItArr env) (dtArr env)).sum

/-- `m1 = numpy.sum(It*t*dt)/m0` (line 168). -/
def timeM1 (env : PropOutput) : ℚ :=
  (List.zipWith (fun a b => a * b)
    (List.zipWith (fun a b => a * b) (ItArr env) (tArr env)) (dtArr env)).sum
    / timeM0 env

/-- `m2 = numpy.sum(It*t**2*dt)/m0` (line 169). -/
def timeM2 (env : PropOutput) : ℚ :=
  (List.zipWith (fun a b => a * b)
    (List.zipWith (fun a b => a * b) (ItArr env) ((tArr env).map (fun x => x ^ 2)))
    (dtArr env)).sum / timeM0 env

/-- Radicand of `rms = math.sqrt(m2 - m1**2)` in the time domain (line 171). -/
def varT (env : PropOutput) : ℚ := timeM2 env - timeM1 env ^ 2

/-- `w = energies[:-1]` (line 183). -/
def wArr (env : PropOutput) : List ℚ := (sliceGrid env.energyMesh).dropLast

/-- `dw = energies[1:] - energies[:-1]` (line 184). -/
def dwArr (env : PropOutput) : List ℚ :=
  List.zipWith (fun a b => a - b) ((sliceGrid env.energyMesh).drop 1)
    ((sliceGrid env.energyMesh).dropLast)

/-- `Iw = spectrum[:-1]` (line 186); the spectrum is not rescaled by `dx*dy`. -/
def IwArr (env : PropOutput) : List ℚ := env.spectrum.dropLast

/-- Energy-domain `m0 = numpy.sum(Iw*dw)` (line 188). -/
def energyM0 (env : PropOutput) : ℚ :=
  (List.zipWith (fun a b => a * b) (IwArr env) (dwArr env)).sum

/-- Energy-domain `m1 = numpy.sum(Iw*w*dw)/m0` (line 189); this is the
`photon_energy` assigned at line 194. -/
def energyM1 (env : PropOutput) : ℚ :=
  (List.zipWith (fun a b => a * b)
    (List.zipWith (fun a b => a * b) (IwArr env) (wArr env)) (dwArr env)).sum
    / energyM0 env

/-- Energy-domain `m2 = numpy.sum(Iw*w**2*dw)/m0` (line 190). -/
def energyM2 (env : PropOutput) : ℚ :=
  (List.zipWith (fun a b => a * b)
    (List.zipWith (fun a b => a * b) (IwArr env) ((wArr env).map (fun x => x ^ 2)))
    (dwArr env)).sum / energyM0 env

/-- Radicand of the energy-domain `rms = math.sqrt(m2 - m1**2)` (line 192). -/
def varW (env : PropOutput) : ℚ := energyM2 env - energyM1 env ^ 2

/-- `scipy.constants.hbar` (as the exact value of the double used by scipy). -/
def hbarQ : ℚ := 1.0545718001391127e-34

/-- `scipy.constants.e` (elementary charge, CODATA value used by scipy). -/
def eQ : ℚ := 1.6021766208e-19

/-- The result of the `DetectorGeometryParameters(...)` constructor call at
lines 207-214.  All arguments are floats (or the string literal `"SASE"`), so
every `checkAndSetInstance` type check in the setters passes. -/
structure DetectorGeometryParameters where
  photon_energy : ℚ
  photon_energy_relative_bandwidth : ℝ
  beam_diameter_fwhm : ℚ
  pulse_energy : ℚ
  divergence : ℚ
  photon_energy_spectrum_type : String

/-- The record built at lines 207-214:
`photon_energy = m1` (energy domain),
`photon_energy_relative_bandwidth = spike_fwhm_eV/photon_energy` with
`spike_fwhm_eV = (hbar/rms)/e` and `rms = sqrt(m2 - m1**2)` (time domain),
`divergence = max(qxqy_fwhm)/2`, `beam_diameter_fwhm = max(xy_fwhm)`. -/
noncomputable def mkBeamRecord (env : PropOutput) : DetectorGeometryParameters :=
  { photon_energy := energyM1 env
    photon_energy_relative_bandwidth :=
      ((hbarQ : ℝ) / Real.sqrt ((varT env : ℚ) : ℝ)) / (eQ : ℝ) / ((energyM1 env : ℚ) : ℝ)
    beam_diameter_fwhm := max env.fwhm_x env.fwhm_y
    pulse_energy := env.pulse_energy
    divergence := max env.qfwhm_x env.qfwhm_y / 2
    photon_energy_spectrum_type := "SASE" }

/-- `propToBeamParameters` (DetectorGeometry.py lines 141-222).  Guards, in
source order: the `os.path.isfile` check (line 145) raises `IOError`;
`math.sqrt` on a negative time-domain radicand (line 171) raises `ValueError`;
`constants.hbar/rms` with `rms == 0.0` (line 173) raises `ZeroDivisionError`;
`math.sqrt` on a negative energy-domain radicand (line 192) raises
`ValueError`.  Otherwise the parameter record of lines 207-214 is returned. -/
noncomputable def propToBeamParameters (env : PropOutput) :
    Except SimErr DetectorGeometryParameters :=
  if env.fileExists = false then .error .ioError
  else if varT env < 0 then .error .valueError
  else if varT env = 0 then .error .zeroDivisionError
  else if varW env < 0 then .error .valueError
  else .ok (mkBeamRecord env)

/-! ## Spec-side moment formulas

These follow the wording of the specification: "compute zeroth/first/second
statistical moments of an intensity-vs-time (or intensity-vs-energy) curve,
derive an RMS width, convert to an energy bandwidth via a physical constant
ratio"; claim formulas `m0 = sum(I*dt)`, `m1 = sum(I*t*dt)/m0`,
`m2 = sum(I*t^2*dt)/m0`, `rms = sqrt(m2 - m1^2)`,
`bandwidth = ((hbar/rms)/e) / meanPhotonEnergy`. -/

/-- Spec formula `m0 = sum(I*dt)`. -/
def specMoment0 (I dx : List ℚ) : ℚ :=
  (List.zipWith (fun a b => a * b) I dx).sum

/-- Spec formula `m1 = sum(I*t*dt)/m0`. -/
def specMoment1 (I x dx : List ℚ) : ℚ :=
  (List.zipWith (fun a b => a * b)
    (List.zipWith (fun a b => a * b) I x) dx).sum / specMoment0 I dx

/-- Spec formula `m2 = sum(I*t^2*dt)/m0`. -/
def specMoment2 (I x dx : List ℚ) : ℚ :=
  (List.zipWith (fun a b => a * b)
    (List.zipWith (fun a b => a * b) I (x.map (fun v => v ^ 2))) dx).sum
    / specMoment0 I dx

/-- Spec formula `rms = sqrt(m2 - m1^2)`. -/
noncomputable def specRms (I x dx : List ℚ) : ℝ :=
  Real.sqrt ((specMoment2 I x dx - specMoment1 I x dx ^ 2 : ℚ) : ℝ)

/-- Spec formula for the relative bandwidth: `(hbar/rms)/e` divided by the mean
photon energy, the mean photon energy being the first moment of the
intensity-vs-energy curve. -/
noncomputable def specBandwidth (It t dt Iw w dw : List ℚ) : ℝ :=
  ((hbarQ : ℝ) / specRms It t dt) / (eQ : ℝ) / ((specMoment1 Iw w dw : ℚ) : ℝ)

/-! ## PlasmaXRTSCalculator.py : constructor check and backengine -/

/-- The `parameters` argument of the `PlasmaXRTSCalculator` constructor, as far
as the `isinstance(parameters, AbstractCalculatorParameters)` test at line 307
can distinguish it.  `calcParams` carries the `_tmp_dir` attribute used by
`backengine`. -/
inductive ParametersArg where
  | calcParams (tmp_dir : String)
  | noneArg
  | otherValue
  deriving DecidableEq, Repr

/-- `isinstance(parameters, AbstractCalculatorParameters)` (line 307). -/
def isCalcParams : ParametersArg → Bool
  | .calcParams _ => true
  | _ => false

/-- `checkAndSetParameters` (PlasmaXRTSCalculator.py lines 304-309): raise
`RuntimeError` unless the argument is an `AbstractCalculatorParameters`
instance. -/
def checkAndSetParameters (parameters : ParametersArg) :
    Except SimErr ParametersArg :=
  if isCalcParams parameters then .ok parameters else .error .runtimeError

/-- The fields of a freshly constructed `PlasmaXRTSCalculator` that the model
tracks. -/
structure PlasmaXRTSCalculator where
  parameters : ParametersArg
  is_initialized : Bool
  deriving DecidableEq, Repr

/-- The `PlasmaXRTSCalculator` constructor (lines 44-60): `checkAndSetParameters`
runs first (line 54) and aborts construction on failure; on success the state
flag is set to not-initialized (line 60). -/
def PlasmaXRTSCalculator.init (parameters : ParametersArg) :
    Except SimErr PlasmaXRTSCalculator := do
  let p ← checkAndSetParameters parameters
  .ok { parameters := p, is_initialized := false }

/-- Environment of a `backengine` run: what the external process produced and
whether `xrts_out.txt` exists in `_tmp_dir` afterwards.  `loadedData` is the
`numpy.loadtxt` result for that file. -/
structure XRTSEnv where
  tmp_dir : String
  stdout : String
  stderr : String
  outFileExists : Bool
  loadedData : List (List ℚ)
  deriving DecidableEq, Repr

/-- The internal calculator state mutated by `backengine`: `self.__run_log`
(line 151) and `self.__run_data` (line 158). -/
structure XRTSState where
  run_log : Option String
  run_data : Option (List (List ℚ))
  deriving DecidableEq, Repr

/-- One `subprocess.Popen` invocation: its argument vector and working
directory. -/
structure SubprocessCall where
  argv : List String
  cwd : String
  deriving DecidableEq, Repr

/-- `command_sequence = ['xrs']` (line 136). -/
def command_sequence : List String := ["xrs"]

/-- Result of a `backengine` call: the subprocess invocations it made, the
exception it raised (if any), and the calculator state afterwards. -/
structure BackengineResult where
  calls : List SubprocessCall
  err : Option SimErr
  state : XRTSState
  deriving DecidableEq, Repr

/-- `PlasmaXRTSCalculator.backengine` (lines 122-160).  After serializing the
input deck, a single `subprocess.Popen(command_sequence, ..., cwd=_tmp_dir)` is
issued (line 137) and awaited.  If stderr is non-empty, `RuntimeError` is
raised (lines 143-144) before `__run_log`/`__run_data` are assigned; if
`xrts_out.txt` does not exist, `IOError` is raised (lines 146-148); otherwise
`__run_log` is set to the captured stdout (line 151; also written to
`xrts.log`) and `__run_data` to `numpy.loadtxt` of the output file (line 158). -/
def backengine (tmp_dir : String) (env : XRTSEnv) (s : XRTSState) :
    BackengineResult :=
  let call : SubprocessCall := { argv := command_sequence, cwd := tmp_dir }
  if env.stderr ≠ "" then
    { calls := [call], err := some .runtimeError, state := s }
  else if env.outFileExists = false then
    { calls := [call], err := some .ioError, state := s }
  else
    { calls := [call], err := none,
      state := { run_log := some env.stdout, run_data := some env.loadedData } }

/-! ## DetectorGeometryParameters setters

`checkAndSetInstance` lives in `SimEx/Utilities/EntityChecks.py`, which is not
part of the excerpted sources; it is modelled below from the specification. -/

/-- A Python value, as far as the modelled type checks can distinguish it. -/
inductive PyVal where
  | noneVal
  | floatVal (q : ℚ)
  | strVal (s : String)
  | intVal (n : ℤ)
  deriving DecidableEq, Repr

/-- The Python classes passed to `checkAndSetInstance` by the setters. -/
inductive PyType where
  | floatTy
  | strTy
  deriving DecidableEq, Repr

/-- Python `isinstance(val, ty)` for the two classes above. -/
def PyVal.isInst : PyVal → PyType → Bool
  | .floatVal _, .floatTy => true
  | .strVal _, .strTy => true
  | _, _ => false

/-- Modelled from the spec: `SimEx.Utilities.EntityChecks.checkAndSetInstance`
is imported at DetectorGeometry.py line 24 but its source is not among the
excerpted files.  Per the specification ("All validated on assignment; invalid
types fail immediately") it returns the default when the value is `None`,
returns the value when it is an instance of the requested class, and fails
with a type error otherwise. -/
def checkAndSetInstance (ty : PyType) (val default : PyVal) :
    Except SimErr PyVal :=
  if val = .noneVal then .ok default
  else if val.isInst ty then .ok val else .error .typeError

/-- The `photon_energy_spectrum_type` setter (DetectorGeometry.py lines
100-103): `checkAndSetInstance(str, val, "SASE")`. -/
def set_photon_energy_spectrum_type (val : PyVal) : Except SimErr PyVal :=
  checkAndSetInstance .strTy val (.strVal "SASE")

/-- The `divergence` setter (DetectorGeometry.py lines 127-130):
`checkAndSetInstance(float, val, 0.0)`. -/
def set_divergence (val : PyVal) : Except SimErr PyVal :=
  checkAndSetInstance .floatTy val (.floatVal 0)

/-! ## Regex machinery for extractDate / parseStaticData

The ten patterns in `parseStaticData` use only literals, the character classes
`\s` and `\d`, the bracket class `[1|\d+.\d+]`, and the `+` quantifier.  In all
ten patterns the character following a `+`-quantified class can never belong to
that class, so Python's leftmost, greedy backtracking matcher coincides with
the greedy no-backtracking matcher implemented here. -/

/-- Python `\s`: the whitespace characters matched by `re` in ASCII mode. -/
def isSpaceChar (c : Char) : Bool :=
  c = ' ' || c = '\t' || c = '\n' || c = '\r' || c = '\x0b' || c = '\x0c'

/-- Character classes occurring in the ten patterns: `\s`, `\d`, and the
bracket expression `[1|\d+.\d+]` of the Debye-Waller pattern, which matches a
single character that is a digit, `1`, `|`, `+` or `.`. -/
inductive CClass where
  | space
  | digit
  | dwClass
  deriving DecidableEq, Repr

/-- Membership of a character in a class. -/
def CClass.mem : CClass → Char → Bool
  | .space, c => isSpaceChar c
  | .digit, c => c.isDigit
  | .dwClass, c => c.isDigit || c = '|' || c = '+' || c = '.'

/-- One item of a pattern: a literal string, exactly one class character, or
one-or-more class characters (`+`, greedy). -/
inductive RItem where
  | lit (s : List Char)
  | one (k : CClass)
  | plus (k : CClass)
  deriving DecidableEq, Repr

/-- Greedy matching of a pattern against the start of `cs`; returns the
matched characters.  Faithful to Python's matcher on the ten patterns (see the
section comment). -/
def matchItems : List RItem → List Char → Option (List Char)
  | [], _ => some []
  | .lit s :: ps, cs =>
      if s.isPrefixOf cs then (matchItems ps (cs.drop s.length)).map (fun m => s ++ m)
      else none
  | .one _ :: _, [] => none
  | .one k :: ps, c :: cs =>
      if k.mem c then (matchItems ps cs).map (fun m => c :: m) else none
  | .plus k :: ps, cs =>
      let run := cs.takeWhile k.mem
      if run.isEmpty then none
      else (matchItems ps (cs.drop run.length)).map (fun m => run ++ m)

/-- Leftmost match: `re.findall(...)[0]`, i.e. the first match found scanning
start positions left to right. -/
def findFirst (p : List RItem) : List Char → Option (List Char)
  | [] => matchItems p []
  | c :: cs =>
      match matchItems p (c :: cs) with
      | some m => some m
      | none => findFirst p cs

/-- `re.compile("=\\s").split(s)`: split at each non-overlapping, leftmost
occurrence of `=` followed by one whitespace character.  (A final lone
character can never start a `=\s` match, so the two-character look is
exhaustive.) -/
def splitEqAux (acc : List Char) : List Char → List (List Char)
  | [] => [acc.reverse]
  | [c] => [(c :: acc).reverse]
  | c :: d :: rest =>
      if c == '=' && isSpaceChar d then acc.reverse :: splitEqAux [] rest
      else splitEqAux (c :: acc) (d :: rest)

/-- `re.split` of the pattern `=\s` over a string. -/
def splitEq (cs : List Char) : List (List Char) := splitEqAux [] cs

/-- Numeric value of a decimal digit character. -/
def digitVal (c : Char) : ℕ := c.toNat - 48

/-- Value of a digit string. -/
def natOfDigits (cs : List Char) : ℕ :=
  cs.foldl (fun n c => 10 * n + digitVal c) 0

/-- Python `float(s)`, restricted to the shapes that reach it here: a digit
string, optionally with a decimal point (`"12"`, `"0.873"`, `"12."`, `".5"`).
Anything else (for instance `"+"`, `"|"`, `"."`) raises `ValueError`, modelled
by `none`. -/
def parseFloat (cs : List Char) : Option ℚ :=
  let intPart := cs.takeWhile Char.isDigit
  let rest := cs.dropWhile Char.isDigit
  match rest with
  | [] => if intPart.isEmpty then none else some (natOfDigits intPart)
  | '.' :: frac =>
      if frac.all Char.isDigit && !(intPart.isEmpty && frac.isEmpty) then
        some ((natOfDigits intPart : ℚ) + (natOfDigits frac : ℚ) / 10 ^ frac.length)
      else none
  | _ => none

/-- `extractDate` (PlasmaXRTSCalculator.py lines 281-299): find the first match
of the pattern in the text (`findall(...)[0]`, raising `IndexError` when there
is none), split the match on `=\s`, and convert the last piece with `float`
(raising `ValueError` when it does not parse). -/
def extractDate (pat : List RItem) (text : List Char) : Except SimErr ℚ :=
  match findFirst pat text with
  | none => .error .indexError
  | some line =>
      match parseFloat ((splitEq line).getLastD []) with
      | none => .error .valueError
      | some q => .ok q

/-- Items of the nine standard patterns `LBL\s+=\s\d+\.\d+`. -/
def stdItems (lbl : List Char) : List RItem :=
  [.lit lbl, .plus .space, .lit ['='], .one .space, .plus .digit, .lit ['.'],
   .plus .digit]

/-- Pattern `f\(k\)\s+=\s\d+\.\d+` (line 267). -/
def fkPat : List RItem := stdItems ("f(k)".toList)

/-- Pattern `q\(k\)\s+=\s\d+\.\d+` (line 268). -/
def qkPat : List RItem := stdItems ("q(k)".toList)

/-- Pattern `S_ii\(k\)\s+=\s\d+\.\d+` (line 269). -/
def skIonPat : List RItem := stdItems ("S_ii(k)".toList)

/-- Pattern `S_ee\^0\(k\)\s+=\s\d+\.\d+` (line 270). -/
def skFreePat : List RItem := stdItems ("S_ee^0(k)".toList)

/-- Pattern `Core_inelastic\(k\)\s+=\s\d+\.\d+` (line 271). -/
def skCorePat : List RItem := stdItems ("Core_inelastic(k)".toList)

/-- Pattern `Elastic\(k\)\s+=\s\d+\.\d+` (line 272). -/
def wkPat : List RItem := stdItems ("Elastic(k)".toList)

/-- Pattern `S_total\(k\)\s+=\s\d+\.\d+` (line 273). -/
def skTotalPat : List RItem := stdItems ("S_total(k)".toList)

/-- Pattern `IP depression \[eV\]\s+=\s\d+\.\d+` (line 274). -/
def iplPat : List RItem := stdItems ("IP depression [eV]".toList)

/-- Pattern `G\(k\)\s+=\s\d+\.\d+` (line 275). -/
def lfcPat : List RItem := stdItems ("G(k)".toList)

/-- Pattern `Debye-Waller\s+=\s+[1|\d+.\d+]` (line 276): after the equals sign
and whitespace it matches a single bracket-class character. -/
def dwPat : List RItem :=
  [.lit ("Debye-Waller".toList), .plus .space, .lit ['='], .plus .space,
   .one .dwClass]

/-- The ten patterns, in the order `parseStaticData` tries them. -/
def tenPatterns : List (List RItem) :=
  [fkPat, qkPat, skIonPat, skFreePat, skCorePat, wkPat, skTotalPat, iplPat,
   lfcPat, dwPat]

/-- The ten keys of the dictionary built by `parseStaticData`, in insertion
order (lines 267-276). -/
def tenKeys : List String :=
  ["fk", "qk", "Sk_ion", "Sk_free", "Sk_core", "Wk", "Sk_total", "ipl", "lfc",
   "debye_waller"]

/-- `parseStaticData` (lines 253-278): run `extractDate` for each of the ten
patterns, propagating the first exception, and return the dictionary
(association list in insertion order). -/
def parseStaticData (s : List Char) : Except SimErr (List (String × ℚ)) := do
  let fk ← extractDate fkPat s
  let qk ← extractDate qkPat s
  let skIon ← extractDate skIonPat s
  let skFree ← extractDate skFreePat s
  let skCore ← extractDate skCorePat s
  let wk ← extractDate wkPat s
  let skTotal ← extractDate skTotalPat s
  let ipl ← extractDate iplPat s
  let lfc ← extractDate lfcPat s
  let dw ← extractDate dwPat s
  return [("fk", fk), ("qk", qk), ("Sk_ion", skIon), ("Sk_free", skFree),
          ("Sk_core", skCore), ("Wk", wk), ("Sk_total", skTotal), ("ipl", ipl),
          ("lfc", lfc), ("debye_waller", dw)]

/-! ## Concrete fixtures used by witnesses and counterexamples -/

/-- A small time-domain mesh: unit pixel, slices at times `0, 1, 2`. -/
def cMeshT : Mesh :=
  { xMin := 0, xMax := 1, nx := 2, yMin := 0, yMax := 1, ny := 2,
    sliceMin := 0, sliceMax := 2, nSlices := 3 }

/-- A small energy-domain mesh: slices at energies `1, 2, 3` (eV). -/
def cMeshW : Mesh :=
  { xMin := 0, xMax := 1, nx := 2, yMin := 0, yMax := 1, ny := 2,
    sliceMin := 1, sliceMax := 3, nSlices := 3 }

/-- A well-behaved propagation output: two populated time slices (so the
temporal variance is `1/4 > 0`), two populated energy slices, real-space FWHM
`1` and `3`, reciprocal-space FWHM `2` and `4`. -/
def cenv1 : PropOutput :=
  { fileExists := true, timeMesh := cMeshT, int0 := [1, 1, 0], pulse_energy := 2,
    energyMesh := cMeshW, spectrum := [1, 1, 0],
    fwhm_x := 1, fwhm_y := 3, qfwhm_x := 2, qfwhm_y := 4 }

/-- A delta-like propagation output: all intensity in the single time slice at
`t = 1`, so the temporal variance `m2 - m1^2` is exactly `0`. -/
def deltaEnv : PropOutput :=
  { fileExists := true, timeMesh := cMeshT, int0 := [0, 1, 0], pulse_energy := 1,
    energyMesh := cMeshW, spectrum := [1, 1, 0],
    fwhm_x := 1, fwhm_y := 1, qfwhm_x := 1, qfwhm_y := 1 }

/-- Like `cenv1` but with the propagation output file missing. -/
def envNoFile : PropOutput := { cenv1 with fileExists := false }

/-- A backengine environment whose subprocess wrote to stderr. -/
def xenvErr : XRTSEnv :=
  { tmp_dir := "/tmp/xrts", stdout := "partial output", stderr := "boom",
    outFileExists := true, loadedData := [[1, 2, 3, 4]] }

/-- A backengine environment with clean stderr but no `xrts_out.txt`. -/
def xenvNoOut : XRTSEnv :=
  { tmp_dir := "/tmp/xrts", stdout := "log text", stderr := "",
    outFileExists := false, loadedData := [] }

/-- A successful backengine environment. -/
def xenvOk : XRTSEnv :=
  { tmp_dir := "/tmp/xrts", stdout := "log text", stderr := "",
    outFileExists := true, loadedData := [[1, 2, 3, 4]] }

/-- The calculator state before a backengine run: nothing stored yet. -/
def xstate0 : XRTSState := { run_log := none, run_data := none }

/-- A log text containing all ten phrases `parseStaticData` looks for. -/
def sampleLog : List Char :=
  ("f(k) = 0.5\nq(k) = 0.5\nS_ii(k) = 0.5\nS_ee^0(k) = 0.5\nCore_inelastic(k) = 0.5\nElastic(k) = 0.5\nS_total(k) = 0.5\nIP depression [eV] = 0.5\nG(k) = 0.5\nDebye-Waller = 1\n").toList

/-- The dictionary `parseStaticData` produces on `sampleLog`. -/
def sampleDict : List (String × ℚ) :=
  [("fk", 1/2), ("qk", 1/2), ("Sk_ion", 1/2), ("Sk_free", 1/2),
   ("Sk_core", 1/2), ("Wk", 1/2), ("Sk_total", 1/2), ("ipl", 1/2),
   ("lfc", 1/2), ("debye_waller", 1)]

/-- A log text containing none of the ten phrases. -/
def badLog : List Char := ("no phrases here".toList)

/-- A log line in the phrasing matched by the nine standard patterns:
the label, `kk` spaces, an equals sign, one space, a decimal number with
integer digits `a` and fractional digits `b`. -/
def stdLine (lbl : List Char) (kk : ℕ) (a b : List Char) : List Char :=
  lbl ++ (List.replicate kk ' ' ++ ('=' :: ' ' :: (a ++ '.' :: b)))

/-- The labels of the nine standard patterns of `parseStaticData`. -/
def stdLabels : List (List Char) :=
  ["f(k)".toList, "q(k)".toList, "S_ii(k)".toList, "S_ee^0(k)".toList,
   "Core_inelastic(k)".toList, "Elastic(k)".toList, "S_total(k)".toList,
   "IP depression [eV]".toList, "G(k)".toList]

/-! ## Shared evaluation lemmas for the concrete fixtures -/

/-- Time-domain variance of the fixture `cenv1`. -/
theorem varT_cenv1 : varT cenv1 = 1/4 := by
  simp [varT, timeM2, timeM1, timeM0, ItArr, dtArr, tArr, totalIntensity,
    sliceGrid, linspace, dxOf, dyOf, cenv1, cMeshT, List.range_succ]
  norm_num

/-- Energy-domain variance of the fixture `cenv1`. -/
theorem varW_cenv1 : varW cenv1 = 1/4 := by
  simp [varW, energyM2, energyM1, energyM0, IwArr, dwArr, wArr,
    sliceGrid, linspace, cenv1, cMeshW, List.range_succ]
  norm_num

/-- Time-domain variance of the delta-like fixture: exactly zero. -/
theorem varT_deltaEnv : varT deltaEnv = 0 := by
  simp [varT, timeM2, timeM1, timeM0, ItArr, dtArr, tArr, totalIntensity,
    sliceGrid, linspace, dxOf, dyOf, deltaEnv, cMeshT, List.range_succ]
  norm_num

/-- On any non-degenerate input, `propToBeamParameters` returns the
constructor record. -/
theorem propToBeamParameters_ok (env : PropOutput) (hf : env.fileExists = true)
    (hv : 0 < varT env) (hw : 0 ≤ varW env) :
    propToBeamParameters env = .ok (mkBeamRecord env) := by
  simp [propToBeamParameters, hf, not_lt.mpr hv.le, hv.ne', not_lt.mpr hw]

/-! ## Claims -/

/-- C1.  `propToBeamParameters` derives the temporal RMS width from the
zeroth/first/second statistical moments of the intensity-vs-time curve
(`m0 = sum(I*dt)`, `m1 = sum(I*t*dt)/m0`, `m2 = sum(I*t^2*dt)/m0`,
`rms = sqrt(m2 - m1^2)`) and converts it to the relative energy bandwidth as
`((hbar/rms)/e)` divided by the mean photon energy, the mean photon energy
being the first moment of the intensity-vs-energy curve.  Stated on the
non-degenerate region (file present, positive temporal variance, nonnegative
energy-domain variance) where the computation completes. -/
theorem propToBeamParameters_bandwidth_spec (env : PropOutput)
    (hf : env.fileExists = true) (hv : 0 < varT env) (hw : 0 ≤ varW env) :
    propToBeamParameters env = .ok (mkBeamRecord env) ∧
    (mkBeamRecord env).photon_energy_relative_bandwidth
      = specBandwidth (ItArr env) (tArr env) (dtArr env) (IwArr env) (wArr env)
          (dwArr env) ∧
    (mkBeamRecord env).photon_energy
      = specMoment1 (IwArr env) (wArr env) (dwArr env) :=
  ⟨propToBeamParameters_ok env hf hv hw, rfl, rfl⟩

/-- Witness for C1 at the concrete fixture `cenv1`. -/
theorem propToBeamParameters_bandwidth_spec_witness :
    cenv1.fileExists = true ∧ 0 < varT cenv1 ∧ 0 ≤ varW cenv1 ∧
    (propToBeamParameters cenv1 = .ok (mkBeamRecord cenv1) ∧
     (mkBeamRecord cenv1).photon_energy_relative_bandwidth
       = specBandwidth (ItArr cenv1) (tArr cenv1) (dtArr cenv1) (IwArr cenv1)
           (wArr cenv1) (dwArr cenv1) ∧
     (mkBeamRecord cenv1).photon_energy
       = specMoment1 (IwArr cenv1) (wArr cenv1) (dwArr cenv1)) :=
  ⟨rfl, by rw [varT_cenv1]; norm_num, by rw [varW_cenv1]; norm_num,
   propToBeamParameters_bandwidth_spec cenv1 rfl
     (by rw [varT_cenv1]; norm_num) (by rw [varW_cenv1]; norm_num)⟩

/-- C2 counterexample.  On the fixture `cenv1` the reciprocal-space FWHM values
are `2` and `4`; the claim says the divergence estimate is their maximum `4`,
but `propToBeamParameters` stores `2` (the maximum halved). -/
theorem divergence_not_max_counterexample :
    (propToBeamParameters cenv1).map (fun p => p.divergence) = .ok 2 ∧
    max cenv1.qfwhm_x cenv1.qfwhm_y = 4 ∧ (2 : ℚ) ≠ 4 := by
  refine ⟨?_, by norm_num [cenv1], by norm_num⟩
  rw [propToBeamParameters_ok cenv1 rfl (by rw [varT_cenv1]; norm_num)
    (by rw [varW_cenv1]; norm_num)]
  show Except.ok (max cenv1.qfwhm_x cenv1.qfwhm_y / 2) = _
  norm_num [cenv1]

/-- C2 (amended).  `propToBeamParameters` sets the scalar beam-diameter
estimate to the larger of the two real-space FWHM values and the scalar
divergence estimate to HALF the larger of the two reciprocal-space FWHM
values. -/
theorem propToBeamParameters_fwhm (env : PropOutput) (hf : env.fileExists = true)
    (hv : 0 < varT env) (hw : 0 ≤ varW env) :
    propToBeamParameters env = .ok (mkBeamRecord env) ∧
    (mkBeamRecord env).beam_diameter_fwhm = max env.fwhm_x env.fwhm_y ∧
    (mkBeamRecord env).divergence = max env.qfwhm_x env.qfwhm_y / 2 :=
  ⟨propToBeamParameters_ok env hf hv hw, rfl, rfl⟩

/-- Witness for the amended C2 at the concrete fixture `cenv1`. -/
theorem propToBeamParameters_fwhm_witness :
    cenv1.fileExists = true ∧ 0 < varT cenv1 ∧ 0 ≤ varW cenv1 ∧
    (propToBeamParameters cenv1 = .ok (mkBeamRecord cenv1) ∧
     (mkBeamRecord cenv1).beam_diameter_fwhm = max cenv1.fwhm_x cenv1.fwhm_y ∧
     (mkBeamRecord cenv1).divergence = max cenv1.qfwhm_x cenv1.qfwhm_y / 2) :=
  ⟨rfl, by rw [varT_cenv1]; norm_num, by rw [varW_cenv1]; norm_num,
   propToBeamParameters_fwhm cenv1 rfl
     (by rw [varT_cenv1]; norm_num) (by rw [varW_cenv1]; norm_num)⟩

/-- C5 counterexample.  On the delta-like fixture (all intensity in the single
time slice at `t = 1`) the temporal variance is exactly zero, and
`propToBeamParameters` raises `ZeroDivisionError` at `constants.hbar/rms`
instead of producing a zero bandwidth. -/
theorem delta_input_zero_division_counterexample :
    varT deltaEnv = 0 ∧
    propToBeamParameters deltaEnv = .error .zeroDivisionError :=
  ⟨varT_deltaEnv, by simp [propToBeamParameters, varT_deltaEnv,
    show deltaEnv.fileExists = true from rfl]⟩

/-- C5 (amended).  For a delta-like input the derived temporal variance
`m2 - m1^2` is zero, and the bandwidth computation then fails with a
division-by-zero error (`constants.hbar/rms` with `rms = sqrt(0) = 0`) instead
of producing a zero bandwidth. -/
theorem propToBeamParameters_delta (env : PropOutput)
    (hf : env.fileExists = true) (h0 : varT env = 0) :
    propToBeamParameters env = .error .zeroDivisionError := by
  simp [propToBeamParameters, hf, h0]

/-- Witness for the amended C5 at the delta-like fixture. -/
theorem propToBeamParameters_delta_witness :
    deltaEnv.fileExists = true ∧ varT deltaEnv = 0 ∧
    propToBeamParameters deltaEnv = .error .zeroDivisionError :=
  ⟨rfl, varT_deltaEnv, propToBeamParameters_delta deltaEnv rfl varT_deltaEnv⟩

/-- C3 counterexample.  On a concrete successful run, `backengine` issues its
single subprocess call with argument vector `["xrs"]`, not `["xrts"]` as the
claim states. -/
theorem backengine_command_counterexample :
    (backengine "/tmp/xrts" xenvOk xstate0).calls.map (fun c => c.argv)
      = [["xrs"]] ∧
    (["xrs"] : List String) ≠ ["xrts"] := by
  refine ⟨?_, by decide⟩
  simp [backengine, xenvOk, command_sequence]

/-- C3 (amended).  `backengine` issues exactly one subprocess call, whose
argument vector is the bare command `command_sequence = ["xrs"]` (no further
arguments) and whose working directory is the parameters' temporary
directory. -/
theorem backengine_single_xrs_call (tmp : String) (env : XRTSEnv)
    (s : XRTSState) :
    (backengine tmp env s).calls = [{ argv := command_sequence, cwd := tmp }] ∧
    command_sequence = ["xrs"] := by
  refine ⟨?_, rfl⟩
  simp only [backengine]
  split_ifs <;> rfl

/-- C4.  Each failure aborts immediately with an exception: a missing
propagation file makes `propToBeamParameters` raise `IOError`; a `parameters`
argument that is not an `AbstractCalculatorParameters` instance makes the
`PlasmaXRTSCalculator` constructor raise `RuntimeError`; non-empty subprocess
stderr makes `backengine` raise; a missing `xrts_out.txt` makes `backengine`
raise `IOError`. -/
theorem errors_abort_immediately :
    (∀ env : PropOutput, env.fileExists = false →
      propToBeamParameters env = .error .ioError) ∧
    (∀ a : ParametersArg, isCalcParams a = false →
      PlasmaXRTSCalculator.init a = .error .runtimeError) ∧
    (∀ (tmp : String) (env : XRTSEnv) (s : XRTSState), env.stderr ≠ "" →
      (backengine tmp env s).err = some .runtimeError) ∧
    (∀ (tmp : String) (env : XRTSEnv) (s : XRTSState), env.stderr = "" →
      env.outFileExists = false → (backengine tmp env s).err = some .ioError) := by
  refine ⟨?_, ?_, ?_, ?_⟩
  · intro env h
    simp [propToBeamParameters, h]
  · intro a h
    simp only [PlasmaXRTSCalculator.init, checkAndSetParameters, h,
      Bool.false_eq_true, if_false]
    rfl
  · intro tmp env s h
    simp [backengine, h]
  · intro tmp env s h1 h2
    simp [backengine, h1, h2]

/-- Witness for C4 at concrete fixtures. -/
theorem errors_abort_immediately_witness :
    propToBeamParameters envNoFile = .error .ioError ∧
    PlasmaXRTSCalculator.init .noneArg = .error .runtimeError ∧
    (backengine "/tmp/xrts" xenvErr xstate0).err = some .runtimeError ∧
    (backengine "/tmp/xrts" xenvNoOut xstate0).err = some .ioError :=
  ⟨errors_abort_immediately.1 envNoFile rfl,
   errors_abort_immediately.2.1 .noneArg rfl,
   errors_abort_immediately.2.2.1 "/tmp/xrts" xenvErr xstate0 (by decide),
   errors_abort_immediately.2.2.2 "/tmp/xrts" xenvNoOut xstate0 rfl rfl⟩

/-- C6 counterexample.  Assigning the string `"bogus"`, which is outside the
set `{SASE, tophat, twocolour}`, to `photon_energy_spectrum_type` succeeds. -/
theorem spectrum_type_unrestricted_counterexample :
    set_photon_energy_spectrum_type (.strVal "bogus") = .ok (.strVal "bogus") ∧
    ("bogus" : String) ∉ (["SASE", "tophat", "twocolour"] : List String) :=
  ⟨by simp [set_photon_energy_spectrum_type, checkAndSetInstance, PyVal.isInst],
   by decide⟩

/-- C6 (amended).  The `photon_energy_spectrum_type` setter only validates the
type: every string value is accepted unchanged (the three listed spectrum
names are not enforced), `None` yields the default `"SASE"`, and a non-string
value fails immediately. -/
theorem spectrum_type_type_check_only (s : String) (q : ℚ) :
    set_photon_energy_spectrum_type (.strVal s) = .ok (.strVal s) ∧
    set_photon_energy_spectrum_type .noneVal = .ok (.strVal "SASE") ∧
    set_photon_energy_spectrum_type (.floatVal q) = .error .typeError := by
  refine ⟨?_, ?_, ?_⟩ <;>
    simp [set_photon_energy_spectrum_type, checkAndSetInstance, PyVal.isInst]

/-- C7 counterexample.  Assigning the float `7`, which exceeds `2π`, to
`divergence` succeeds: the setter enforces no range. -/
theorem divergence_unbounded_counterexample :
    set_divergence (.floatVal 7) = .ok (.floatVal 7) ∧ 2 * Real.pi < 7 := by
  constructor
  · simp [set_divergence, checkAndSetInstance, PyVal.isInst]
  · nlinarith [Real.pi_lt_d2]

/-- C7 (amended).  The `divergence` setter only validates the type: every
float is accepted unchanged (no 0-to-2π range check), `None` yields the
default `0.0`, and a non-float value fails immediately. -/
theorem divergence_type_check_only (q : ℚ) (s : String) :
    set_divergence (.floatVal q) = .ok (.floatVal q) ∧
    set_divergence .noneVal = .ok (.floatVal 0) ∧
    set_divergence (.strVal s) = .error .typeError := by
  refine ⟨?_, ?_, ?_⟩ <;> simp [set_divergence, checkAndSetInstance, PyVal.isInst]

/-- C10.  When `backengine` aborts because the subprocess stderr is non-empty,
the exception is raised before `__run_log` or `__run_data` are assigned: the
calculator state after the failed call is exactly the state before it. -/
theorem backengine_stderr_state_unchanged (tmp : String) (env : XRTSEnv)
    (s : XRTSState) (h : env.stderr ≠ "") :
    (backengine tmp env s).err = some .runtimeError ∧
    (backengine tmp env s).state = s := by
  constructor <;> simp [backengine, h]

/-- Witness for C10 at concrete fixtures: a run with stderr `"boom"` starting
from the empty state leaves the state empty. -/
theorem backengine_stderr_state_unchanged_witness :
    (backengine "/tmp/xrts" xenvErr xstate0).err = some .runtimeError ∧
    (backengine "/tmp/xrts" xenvErr xstate0).state = xstate0 :=
  backengine_stderr_state_unchanged "/tmp/xrts" xenvErr xstate0 (by decide)

/-- Decomposition of a successful `Except` bind. -/
theorem bind_ok {α β : Type} {x : Except SimErr α} {f : α → Except SimErr β}
    {b : β} (h : (x >>= f) = .ok b) : ∃ a, x = .ok a ∧ f a = .ok b := by
  cases x with
  | error e => simp [Bind.bind, Except.bind] at h
  | ok a => exact ⟨a, rfl, h⟩

/-- A successful `extractDate` requires the pattern to match somewhere:
`findall(...)[0]` raises `IndexError` otherwise. -/
theorem extractDate_ok_ne_none {p : List RItem} {text : List Char} {q : ℚ}
    (h : extractDate p text = .ok q) : findFirst p text ≠ none := by
  intro hn
  unfold extractDate at h
  rw [hn] at h
  simp at h

/-- C9.  `parseStaticData` either raises or returns a dictionary whose keys
are exactly the ten keys `fk, qk, Sk_ion, Sk_free, Sk_core, Wk, Sk_total,
ipl, lfc, debye_waller` (in insertion order), and it raises whenever any one
of the ten expected log phrases is absent from the input string. -/
theorem parseStaticData_ten_keys (s : List Char) :
    ((parseStaticData s).map (fun d => d.map Prod.fst) = .ok tenKeys ∨
      (parseStaticData s).isOk = false) ∧
    (∀ p ∈ tenPatterns, findFirst p s = none →
      (parseStaticData s).isOk = false) := by
  have key : ∀ d, parseStaticData s = .ok d →
      d.map Prod.fst = tenKeys ∧ ∀ p ∈ tenPatterns, findFirst p s ≠ none := by
    intro d hd
    unfold parseStaticData at hd
    obtain ⟨v1, h1, hd⟩ := bind_ok hd
    obtain ⟨v2, h2, hd⟩ := bind_ok hd
    obtain ⟨v3, h3, hd⟩ := bind_ok hd
    obtain ⟨v4, h4, hd⟩ := bind_ok hd
    obtain ⟨v5, h5, hd⟩ := bind_ok hd
    obtain ⟨v6, h6, hd⟩ := bind_ok hd
    obtain ⟨v7, h7, hd⟩ := bind_ok hd
    obtain ⟨v8, h8, hd⟩ := bind_ok hd
    obtain ⟨v9, h9, hd⟩ := bind_ok hd
    obtain ⟨v10, h10, hd⟩ := bind_ok hd
    simp only [pure, Except.pure, Except.ok.injEq] at hd
    subst hd
    refine ⟨rfl, ?_⟩
    intro p hp
    fin_cases hp
    · exact extractDate_ok_ne_none h1
    · exact extractDate_ok_ne_none h2
    · exact extractDate_ok_ne_none h3
    · exact extractDate_ok_ne_none h4
    · exact extractDate_ok_ne_none h5
    · exact extractDate_ok_ne_none h6
    · exact extractDate_ok_ne_none h7
    · exact extractDate_ok_ne_none h8
    · exact extractDate_ok_ne_none h9
    · exact extractDate_ok_ne_none h10
  constructor
  · cases hps : parseStaticData s with
    | error e => exact Or.inr rfl
    | ok d => exact Or.inl (by rw [Except.map, (key d hps).1])
  · intro p hp hf
    cases hps : parseStaticData s with
    | error e => rfl
    | ok d => exact absurd hf ((key d hps).2 p hp)

/-- Witness for C9: on `badLog` (which contains no phrase) `parseStaticData`
raises; on `sampleLog` (which contains all ten phrases) it returns a
dictionary with exactly the ten keys. -/
theorem parseStaticData_ten_keys_witness :
    (parseStaticData badLog).isOk = false ∧
    (parseStaticData sampleLog).map (fun d => d.map Prod.fst) = .ok tenKeys :=
  ⟨(parseStaticData_ten_keys badLog).2 fkPat (by decide) (by decide),
   ((parseStaticData_ten_keys sampleLog).1).resolve_right (by
     intro hfalse
     rw [show (parseStaticData sampleLog).isOk = true from rfl] at hfalse
     cases hfalse)⟩

/-! ## Regex lemmas for C8 -/

/-- `takeWhile` runs through a prefix that wholly satisfies the predicate. -/
theorem all_takeWhile_append (p : Char → Bool) (xs ys : List Char)
    (h : xs.all p = true) : (xs ++ ys).takeWhile p = xs ++ ys.takeWhile p := by
  induction xs with
  | nil => rfl
  | cons c cs ih =>
      simp only [List.all_cons, Bool.and_eq_true] at h
      simp [List.takeWhile_cons, h.1, ih h.2]

/-- `dropWhile` drops a prefix that wholly satisfies the predicate. -/
theorem all_dropWhile_append (p : Char → Bool) (xs ys : List Char)
    (h : xs.all p = true) : (xs ++ ys).dropWhile p = ys.dropWhile p := by
  induction xs with
  | nil => rfl
  | cons c cs ih =>
      simp only [List.all_cons, Bool.and_eq_true] at h
      simp [List.dropWhile_cons, h.1, ih h.2]

/-- A list is a Boolean prefix of itself followed by anything. -/
theorem isPrefixOf_append_self (xs ys : List Char) :
    xs.isPrefixOf (xs ++ ys) = true := by
  induction xs with
  | nil => simp [List.isPrefixOf]
  | cons c cs ih => simp [List.isPrefixOf, ih]

/-- A literal item consumes exactly its own text. -/
theorem matchItems_lit (s : List Char) (ps : List RItem) (rest : List Char) :
    matchItems (.lit s :: ps) (s ++ rest)
      = (matchItems ps rest).map (fun m => s ++ m) := by
  simp [matchItems, isPrefixOf_append_self, List.drop_left]

/-- Single-character literal item, `cons` form. -/
theorem matchItems_litc (c : Char) (ps : List RItem) (rest : List Char) :
    matchItems (.lit [c] :: ps) (c :: rest)
      = (matchItems ps rest).map (fun m => c :: m) := by
  simp [matchItems, List.isPrefixOf]

/-- A one-character class item consumes one matching character. -/
theorem matchItems_one {k : CClass} {c : Char} (ps : List RItem)
    (rest : List Char) (h : k.mem c = true) :
    matchItems (.one k :: ps) (c :: rest)
      = (matchItems ps rest).map (fun m => c :: m) := by
  simp [matchItems, h]

/-- A greedy `+` item consumes exactly a nonempty all-matching block when the
following text starts with a non-matching character. -/
theorem matchItems_plus {k : CClass} {xs : List Char} (ps : List RItem)
    (rest : List Char) (hall : xs.all k.mem = true) (hne : xs ≠ [])
    (hstop : rest.takeWhile k.mem = []) :
    matchItems (.plus k :: ps) (xs ++ rest)
      = (matchItems ps rest).map (fun m => xs ++ m) := by
  have ht : (xs ++ rest).takeWhile k.mem = xs := by
    rw [all_takeWhile_append _ _ _ hall, hstop, List.append_nil]
  have hemp : xs.isEmpty = false := by
    cases xs with
    | nil => exact absurd rfl hne
    | cons a as => rfl
  simp only [matchItems, ht, hemp, Bool.false_eq_true, if_false, List.drop_left]

/-- A run of blanks lies in the `\s` class. -/
theorem replicate_all_space (kk : ℕ) :
    (List.replicate kk ' ').all (CClass.mem .space) = true := by
  simp only [List.all_eq_true]
  intro c hc
  rw [List.eq_of_mem_replicate hc]
  decide

/-- A standard pattern matches a standard line exactly, also when followed by
arbitrary text that does not start with a digit. -/
theorem matchItems_stdLine (lbl a b post : List Char) (kk : ℕ)
    (hk : 1 ≤ kk) (ha0 : a ≠ []) (ha : a.all Char.isDigit = true)
    (hb0 : b ≠ []) (hb : b.all Char.isDigit = true)
    (hpost : post.takeWhile Char.isDigit = []) :
    matchItems (stdItems lbl) (stdLine lbl kk a b ++ post)
      = some (stdLine lbl kk a b) := by
  have hT : stdLine lbl kk a b ++ post
      = lbl ++ (List.replicate kk ' ' ++ ('=' :: ' ' :: (a ++ ('.' :: (b ++ post))))) := by
    simp [stdLine, List.append_assoc]
  have hrep : List.replicate kk ' ' ≠ ([] : List Char) := by
    intro hnil
    have := congrArg List.length hnil
    simp at this
    omega
  rw [hT]
  show matchItems (.lit lbl :: [.plus .space, .lit ['='], .one .space, .plus .digit,
    .lit ['.'], .plus .digit]) _ = _
  rw [matchItems_lit]
  rw [matchItems_plus _ _ (replicate_all_space kk) hrep (by simp [List.takeWhile_cons]; decide)]
  rw [matchItems_litc]
  rw [matchItems_one _ _ (by decide)]
  have hadig : a.all (CClass.mem .digit) = true := ha
  have hbdig : b.all (CClass.mem .digit) = true := hb
  rw [matchItems_plus _ _ hadig ha0 (by simp [List.takeWhile_cons]; decide)]
  rw [matchItems_litc]
  rw [matchItems_plus _ _ hbdig hb0 (by exact hpost)]
  show (((((((matchItems [] post).map _).map _).map _).map _).map _).map _).map _ = _
  simp [matchItems, stdLine, List.append_assoc]

/-- A match at the current position is what `findFirst` returns. -/
theorem findFirst_of_match {p : List RItem} {cs m : List Char}
    (h : matchItems p cs = some m) : findFirst p cs = some m := by
  cases cs with
  | nil => simpa [findFirst] using h
  | cons c cs2 => simp [findFirst, h]

/-- `findFirst` skips over start positions that do not match. -/
theorem findFirst_skip (p : List RItem) (pre rest : List Char)
    (hpre : ∀ j, j < pre.length → matchItems p ((pre ++ rest).drop j) = none) :
    findFirst p (pre ++ rest) = findFirst p rest := by
  induction pre with
  | nil => rfl
  | cons c pre2 ih =>
      have h0 := hpre 0 (by simp)
      simp only [List.drop_zero] at h0
      simp only [List.cons_append] at h0 ⊢
      rw [findFirst, h0]
      exact ih (fun j hj => by
        have hj1 := hpre (j + 1) (by simp; omega)
        simpa using hj1)

/-- Splitting on `=\s` leaves a string without `=` in one piece. -/
theorem splitEqAux_no_eq (cs : List Char) (h : ('=' : Char) ∉ cs) :
    ∀ acc, splitEqAux acc cs = [acc.reverse ++ cs] := by
  induction cs with
  | nil => intro acc; simp [splitEqAux]
  | cons c cs2 ih =>
      intro acc
      have hc : (c == '=') = false := by
        simp only [beq_eq_false_iff_ne, ne_eq]
        intro hc
        exact h (hc ▸ List.mem_cons_self c cs2)
      cases cs2 with
      | nil => simp [splitEqAux]
      | cons d rest =>
          rw [splitEqAux, hc]
          simp only [Bool.false_and, Bool.false_eq_true, if_false]
          rw [ih (fun hm => h (List.mem_cons_of_mem c hm)) (c :: acc)]
          simp

/-- Splitting on `=\s` cuts at the first `=`-blank pair after an `=`-free
prefix. -/
theorem splitEqAux_split (u v : List Char) (d : Char)
    (hu : ('=' : Char) ∉ u) (hd : isSpaceChar d = true) :
    ∀ acc, splitEqAux acc (u ++ '=' :: d :: v)
      = (acc.reverse ++ u) :: splitEqAux [] v := by
  induction u with
  | nil =>
      intro acc
      simp only [List.nil_append]
      rw [splitEqAux.eq_def]
      simp [hd]
  | cons c u2 ih =>
      intro acc
      have hc : (c == '=') = false := by
        simp only [beq_eq_false_iff_ne, ne_eq]
        intro hc
        exact hu (hc ▸ List.mem_cons_self c u2)
      have ih2 := ih (fun hm => hu (List.mem_cons_of_mem c hm))
      cases u2 with
      | nil =>
          simp only [List.cons_append, List.nil_append] at ih2 ⊢
          rw [splitEqAux.eq_3, hc]
          simp only [Bool.false_and, Bool.false_eq_true, if_false]
          rw [ih2 (c :: acc)]
          simp
      | cons e u3 =>
          simp only [List.cons_append] at ih2 ⊢
          rw [splitEqAux.eq_3, hc]
          simp only [Bool.false_and, Bool.false_eq_true, if_false]
          rw [ih2 (c :: acc)]
          simp

/-- `float` on a digit string, a dot and a digit string yields the decimal
value. -/
theorem parseFloat_decimal (a b : List Char) (ha0 : a ≠ [])
    (ha : a.all Char.isDigit = true) (hb : b.all Char.isDigit = true) :
    parseFloat (a ++ '.' :: b)
      = some ((natOfDigits a : ℚ) + (natOfDigits b : ℚ) / 10 ^ b.length) := by
  have ht : (a ++ '.' :: b).takeWhile Char.isDigit = a := by
    rw [all_takeWhile_append _ _ _ ha]
    simp [List.takeWhile_cons]
  have hd : (a ++ '.' :: b).dropWhile Char.isDigit = '.' :: b := by
    rw [all_dropWhile_append _ _ _ ha]
    simp [List.dropWhile_cons]
  have hae : a.isEmpty = false := by
    cases a with
    | nil => exact absurd rfl ha0
    | cons x xs => rfl
  simp only [parseFloat, ht, hd, hb, hae, Bool.false_and, Bool.not_false,
    Bool.and_true, if_pos]

/-- `=` is not a digit, so digit strings avoid it. -/
theorem no_eq_of_all_digit (xs : List Char) (h : xs.all Char.isDigit = true) :
    ('=' : Char) ∉ xs := by
  intro hm
  have := (List.all_eq_true.mp h) '=' hm
  simp at this

/-- `re.split("=\s", line)` on a standard line yields the label-and-blanks
piece and the number piece. -/
theorem splitEq_stdLine (lbl a b : List Char) (kk : ℕ)
    (hlbl : ('=' : Char) ∉ lbl)
    (ha : a.all Char.isDigit = true) (hb : b.all Char.isDigit = true) :
    splitEq (stdLine lbl kk a b)
      = [lbl ++ List.replicate kk ' ', a ++ '.' :: b] := by
  have hassoc : stdLine lbl kk a b
      = (lbl ++ List.replicate kk ' ') ++ '=' :: ' ' :: (a ++ '.' :: b) := by
    simp [stdLine, List.append_assoc]
  have hu : ('=' : Char) ∉ lbl ++ List.replicate kk ' ' := by
    intro hm
    rcases List.mem_append.mp hm with h1 | h2
    · exact hlbl h1
    · have := List.eq_of_mem_replicate h2
      simp at this
  have hv : ('=' : Char) ∉ a ++ '.' :: b := by
    intro hm
    rcases List.mem_append.mp hm with h1 | h2
    · exact no_eq_of_all_digit a ha h1
    · rcases h2 with _ | h3
      · exact no_eq_of_all_digit b hb (by assumption)
  unfold splitEq
  rw [hassoc, splitEqAux_split _ _ _ hu (by decide) [],
    splitEqAux_no_eq _ hv []]
  simp

/-- For an `=`-free label, extraction from a text whose first match is a
standard line returns the decimal number after the equals sign. -/
theorem extractDate_stdLine_core (lbl pre a b post : List Char) (kk : ℕ)
    (hne : ('=' : Char) ∉ lbl) (hk : 1 ≤ kk)
    (ha0 : a ≠ []) (ha : a.all Char.isDigit = true)
    (hb0 : b ≠ []) (hb : b.all Char.isDigit = true)
    (hpost : post.takeWhile Char.isDigit = [])
    (hpre : ∀ j, j < pre.length →
      matchItems (stdItems lbl) ((pre ++ (stdLine lbl kk a b ++ post)).drop j) = none) :
    extractDate (stdItems lbl) (pre ++ (stdLine lbl kk a b ++ post))
      = .ok ((natOfDigits a : ℚ) + (natOfDigits b : ℚ) / 10 ^ b.length) := by
  have hmatch := matchItems_stdLine lbl a b post kk hk ha0 ha hb0 hb hpost
  have hff : findFirst (stdItems lbl) (pre ++ (stdLine lbl kk a b ++ post))
      = some (stdLine lbl kk a b) := by
    rw [findFirst_skip _ _ _ hpre]
    exact findFirst_of_match hmatch
  unfold extractDate
  rw [hff]
  show (match parseFloat ((splitEq (stdLine lbl kk a b)).getLastD []) with
        | none => Except.error SimErr.valueError
        | some q => Except.ok q)
      = Except.ok ((natOfDigits a : ℚ) + (natOfDigits b : ℚ) / 10 ^ b.length)
  rw [splitEq_stdLine lbl a b kk hne ha hb]
  show (match parseFloat (a ++ '.' :: b) with
        | none => Except.error SimErr.valueError
        | some q => Except.ok q)
      = Except.ok ((natOfDigits a : ℚ) + (natOfDigits b : ℚ) / 10 ^ b.length)
  rw [parseFloat_decimal a b ha0 ha hb]

/-- C8 (amended).  For each of the nine standard patterns of
`parseStaticData`, on any log text whose first match of that pattern is a line
in the exact physics-report phrasing (label, blanks, `= `, digits `a`, a dot,
digits `b`, followed by text not starting with a digit), `extractDate` returns
the decimal number standing after the equals sign as a float.  (The tenth,
Debye-Waller, pattern captures only a single character after the whitespace
and is excluded; see the counterexample.) -/
theorem extractDate_std (lbl : List Char) (hlbl : lbl ∈ stdLabels)
    (pre a b post : List Char) (kk : ℕ) (hk : 1 ≤ kk)
    (ha0 : a ≠ []) (ha : a.all Char.isDigit = true)
    (hb0 : b ≠ []) (hb : b.all Char.isDigit = true)
    (hpost : post.takeWhile Char.isDigit = [])
    (hpre : ∀ j, j < pre.length →
      matchItems (stdItems lbl) ((pre ++ (stdLine lbl kk a b ++ post)).drop j) = none) :
    extractDate (stdItems lbl) (pre ++ (stdLine lbl kk a b ++ post))
      = .ok ((natOfDigits a : ℚ) + (natOfDigits b : ℚ) / 10 ^ b.length) := by
  refine extractDate_stdLine_core lbl pre a b post kk ?_ hk ha0 ha hb0 hb hpost hpre
  fin_cases hlbl <;> decide

/-- Witness for the amended C8: the claim's own sample line
`f(k)   = 0.873` yields `0.873`. -/
theorem extractDate_std_witness :
    extractDate fkPat (("f(k)   = 0.873").toList) = .ok (873 / 1000 : ℚ) := by
  have h := extractDate_std (("f(k)").toList) (by decide) [] ['0'] (("873").toList)
    [] 3 (by decide) (by decide) (by decide) (by decide) (by decide) rfl
    (fun j hj => absurd hj (Nat.not_lt_zero j))
  have e1 : ([] : List Char) ++ (stdLine (("f(k)").toList) 3 ['0'] (("873").toList) ++ [])
      = ("f(k)   = 0.873").toList := by decide
  rw [e1] at h
  have e2 : natOfDigits ['0'] = 0 := by decide
  have e3 : natOfDigits (("873").toList) = 873 := by decide
  have e4 : (("873").toList).length = 3 := by decide
  rw [e2, e3, e4] at h
  rw [show fkPat = stdItems (("f(k)").toList) from rfl, h]
  norm_num

/-- C8 counterexample.  The Debye-Waller pattern captures only one character
after the whitespace: on the line `Debye-Waller  = 0.998` the extraction
returns `0.0`, not the number `0.998` standing after the equals sign. -/
theorem debye_waller_truncation_counterexample :
    extractDate dwPat (("Debye-Waller  = 0.998").toList) = .ok 0 ∧
    (0 : ℚ) ≠ 499/500 := by
  constructor
  · rfl
  · norm_num
